import Mathlib

/-!
Shallow embedding of the actix-session-surrealdb session store
(`src/lib.rs`, `src/dates.rs`, `src/session_key.rs`).

Machine integers are modelled as `Int` with explicit two complement
wraparound where the Rust code can overflow; the wall clock, the random
source and the backing store outcome (success or failure of each database
call) are injected as explicit parameters, following the capability
injection described in the design notes of the specification.
-/

namespace ActixSessionSurrealdb

/- ===================== src/dates.rs ===================== -/

def i64Max : Int := 9223372036854775807

def i64Min : Int := -9223372036854775808

/-- The truncating Rust cast `n as i64` applied to an `i128` value:
two complement wraparound into the `i64` range. -/
def wrap64 (n : Int) : Int :=
  (n + 9223372036854775808) % 18446744073709551616 - 9223372036854775808

/-- `i128_into_i64` from `src/dates.rs`: `if n > i64::MAX as i128 { None }
else { Some(n as i64) }`.  Note that the source checks only the upper
bound; values below `i64::MIN` reach the truncating cast. -/
def i128_into_i64 (n : Int) : Option Int :=
  if n > i64Max then none else some (wrap64 n)

/-- The `time` crate `Duration` handed to the store as TTL: whole seconds
plus a nanosecond part (the crate keeps both components with the same
sign and the nanosecond part below one second in magnitude). -/
structure Duration where
  seconds : Int
  nanoseconds : Int
deriving DecidableEq

/-- `Duration::whole_milliseconds`, an `i128` in the source: seconds times
1000 plus the nanosecond part divided by 10^6 with Rust division
(truncation toward zero, `Int.tdiv`). -/
def Duration.whole_milliseconds (d : Duration) : Int :=
  d.seconds * 1000 + Int.tdiv d.nanoseconds 1000000

/-- `Duration::is_zero`: both components are zero. -/
def Duration.is_zero (d : Duration) : Bool :=
  d.seconds == 0 && d.nanoseconds == 0

/-- `Duration::is_negative`: either component is negative. -/
def Duration.is_negative (d : Duration) : Bool :=
  decide (d.seconds < 0) || decide (d.nanoseconds < 0)

/-- Modelled from the spec: the representable range of the absolute
timestamp type (chrono `NaiveDateTime`, an external collaborator), in
milliseconds since the epoch. -/
def ndtMinMs : Int := -8334601228800000

/-- Modelled from the spec: upper end of the representable range of the
absolute timestamp type, in milliseconds since the epoch. -/
def ndtMaxMs : Int := 8210266876799999

/-- Modelled from the spec: chrono `NaiveDateTime::from_timestamp_millis`
(an external collaborator) succeeds exactly when the millisecond value
lies inside the representable timestamp range.  Timestamps are modelled
by their millisecond value. -/
def from_timestamp_millis (m : Int) : Option Int :=
  if ndtMinMs ≤ m ∧ m ≤ ndtMaxMs then some m else none

/-- `add_duration_to_current` from `src/dates.rs`.  `now` is the injected
value of `Utc::now().timestamp_millis()`.  The `i64` addition
`now + offset` is modelled with two complement wraparound
(release profile semantics). -/
def add_duration_to_current (now : Int) (duration : Duration) : Option Int :=
  match i128_into_i64 duration.whole_milliseconds with
  | none => none
  | some offset =>
    match from_timestamp_millis (wrap64 (now + offset)) with
    | none => none
    | some naive_date => some naive_date

/- ===================== src/session_key.rs ===================== -/

/-- The 62 character alphabet of the rand `Alphanumeric` distribution
(an external collaborator), in its source order. -/
def alphanumericChars : List Char :=
  "ABCDEFGHIJKLMNOPQRSTUVWXYZabcdefghijklmnopqrstuvwxyz0123456789".toList

/-- `generate_session_key` from `src/session_key.rs`: 64 successive
samples of the `Alphanumeric` distribution over the injected entropy
stream (`OsRng` in the source); each sample indexes the 62 character
alphabet. -/
def generate_session_key (entropy : Nat → Nat) : String :=
  String.mk ((List.range 64).map (fun i => alphanumericChars.getD (entropy i % 62) 'A'))

/- ============ session state and the record codec ============ -/

/-- `SessionState` from `src/lib.rs`: a map from string keys to string
values (`HashMap<String, String>` in the source), modelled as an
association list. -/
abbrev SessionState := List (String × String)

/-- Modelled from the spec: the RecordCodec (serde_json in the source, an
external collaborator).  A stored token string is classified by how
`serde_json::from_str::<Option<SessionState>>` treats it: the JSON text
of a state map, the JSON literal `null`, or a malformed payload. -/
inductive Token
  | stateJson (s : SessionState)
  | nullJson
  | malformed (raw : String)
deriving DecidableEq

/-- Modelled from the spec: `serde_json::to_string` applied to a
`SessionState`.  Encoding a map of strings cannot fail, so the
Serialization error branches of `save` and `update` are unreachable. -/
def encodeState (s : SessionState) : Token :=
  Token.stateJson s

/-- Modelled from the spec: `serde_json::from_str::<Option<SessionState>>`
applied to a stored token (`src/lib.rs` line 162).  The JSON of a state
map decodes to `some`, the literal `null` decodes to `none`, and a
malformed payload fails with the deserialization message. -/
def decodeToken : Token → Except String (Option SessionState)
  | Token.stateJson s => Except.ok (some s)
  | Token.nullJson => Except.ok none
  | Token.malformed raw => Except.error raw

/- ============ the backing store (surrealdb) model ============ -/

/-- `KeyRecord` from `src/lib.rs`.  The record id is the string part of
the `Thing`; the table name is fixed per store and therefore dropped.
The expiry `Datetime` is modelled by its `timestamp_millis` value. -/
structure KeyRecord where
  id : String
  token : Token
  expiry : Int
deriving DecidableEq

/-- `KeyRecordPatch` from `src/lib.rs`: the merge patch with explicitly
optional fields. -/
structure KeyRecordPatch where
  token : Option Token
  expiry : Option Int
deriving DecidableEq

/-- The session table of the backing store. -/
abbrev DB := List KeyRecord

/-- Lookup of the record with the given id. -/
def dbFind (db : DB) (key : String) : Option KeyRecord :=
  match db with
  | [] => none
  | r :: rest => if r.id = key then some r else dbFind rest key

/-- Removal of every record with the given id. -/
def dbRemove (db : DB) (key : String) : DB :=
  match db with
  | [] => []
  | r :: rest => if r.id = key then dbRemove rest key else r :: dbRemove rest key

/-- Modelled from the spec: the merge-update collaborator contract.  A
field supplied in the patch replaces the stored field; an absent field is
left untouched; the identifier is never changed. -/
def dbMergePatch (db : DB) (key : String) (p : KeyRecordPatch) : DB :=
  db.map (fun r =>
    if r.id = key then
      { id := r.id, token := p.token.getD r.token, expiry := p.expiry.getD r.expiry }
    else r)

/-- Modelled from the spec: the backing store `select` call.  `fail`
injects a backend failure. -/
def dbSelect (fail : Bool) (db : DB) (key : String) : Except Unit (Option KeyRecord) :=
  if fail then Except.error () else Except.ok (dbFind db key)

/-- Modelled from the spec: the backing store `delete` call.  Deleting an
absent id succeeds (idempotent); `fail` injects a backend failure. -/
def dbDelete (fail : Bool) (db : DB) (key : String) : Except Unit DB :=
  if fail then Except.error () else Except.ok (dbRemove db key)

/-- Modelled from the spec: the backing store `create` call, which fails
when a record with the same id already exists; `fail` injects a backend
failure. -/
def dbCreate (fail : Bool) (db : DB) (rec : KeyRecord) : Except Unit DB :=
  if fail || (dbFind db rec.id).isSome then Except.error ()
  else Except.ok (rec :: db)

/-- Modelled from the spec: the backing store merge-update call, which
fails when the targeted record no longer exists; `fail` injects a backend
failure. -/
def dbUpdateMerge (fail : Bool) (db : DB) (key : String) (p : KeyRecordPatch) :
    Except Unit DB :=
  if fail || (dbFind db key).isNone then Except.error ()
  else Except.ok (dbMergePatch db key p)

/- ============ src/lib.rs: the SessionStore impl ============ -/

/-- `LoadError` of the actix-session interface, as used by `load`. -/
inductive LoadError
  | other (msg : String)
  | deserialization (msg : String)
deriving DecidableEq

/-- Outcome of a `load` call.  `panicked` records the process abort that
the `.expect(..)` on the expired-record delete produces on a backend
failure. -/
inductive LoadResult
  | ok (v : Option SessionState)
  | err (e : LoadError)
  | panicked (msg : String)
deriving DecidableEq

/-- `SaveError` of the actix-session interface. -/
inductive SaveError
  | serialization (msg : String)
  | other (msg : String)
deriving DecidableEq

/-- Outcome of a `save` call: the generated key and the new table, or an
error. -/
inductive SaveResult
  | ok (key : String) (db : DB)
  | err (e : SaveError)
deriving DecidableEq

/-- `UpdateError` of the actix-session interface. -/
inductive UpdateError
  | serialization (msg : String)
  | other (msg : String)
deriving DecidableEq

/-- Outcome of an `update` call: the returned key and the new table, or
an error. -/
inductive UpdateResult
  | ok (key : String) (db : DB)
  | err (e : UpdateError)
deriving DecidableEq

/-- Outcome of `update_ttl` and `delete`: the new table, or the anyhow
error message. -/
inductive OpResult
  | ok (db : DB)
  | err (msg : String)
deriving DecidableEq

/-- `SurrealSessionStore::load` (`src/lib.rs` lines 135-163).  Returns the
call outcome together with the possibly changed table.  A failing select
yields `LoadError::Other`; an absent record yields `Ok(None)`; an expired
record is deleted — the `.expect(..)` on that delete panics when the
backend delete fails — and yields `Ok(None)`; otherwise the stored token
is deserialized as `Option<SessionState>` and a decode failure yields
`LoadError::Deserialization`. -/
def load (selectFail deleteFail : Bool) (db : DB) (now : Int) (session_key : String) :
    LoadResult × DB :=
  match dbSelect selectFail db session_key with
  | Except.error _ => (LoadResult.err (LoadError.other "Reading database record failed!"), db)
  | Except.ok none => (LoadResult.ok none, db)
  | Except.ok (some record) =>
    if record.expiry < now then
      match dbDelete deleteFail db session_key with
      | Except.error _ => (LoadResult.panicked "Deleting database record failed!", db)
      | Except.ok db2 => (LoadResult.ok none, db2)
    else
      match decodeToken record.token with
      | Except.error msg => (LoadResult.err (LoadError.deserialization msg), db)
      | Except.ok v => (LoadResult.ok v, db)

/-- `SurrealSessionStore::save` (`src/lib.rs` lines 165-195).  The source
serializes the state first (the Serialization branch is unreachable for a
map of strings), generates a fresh key — injected here as `freshKey` —
computes the expiry, and creates the record. -/
def save (createFail : Bool) (db : DB) (now : Int) (session_state : SessionState)
    (ttl : Duration) (freshKey : String) : SaveResult :=
  match add_duration_to_current now ttl with
  | none => SaveResult.err (SaveError.other "Invalid duration length!")
  | some expiry_time =>
    match dbCreate createFail db ⟨freshKey, encodeState session_state, expiry_time⟩ with
    | Except.error _ => SaveResult.err (SaveError.other "Failed to create database record!")
    | Except.ok db2 => SaveResult.ok freshKey db2

/-- `SurrealSessionStore::update` (`src/lib.rs` lines 197-227): serialize
the state, compute the expiry, merge-patch token and expiry onto the
existing record, and return the session key that was passed in. -/
def update (mergeFail : Bool) (db : DB) (now : Int) (session_key : String)
    (session_state : SessionState) (ttl : Duration) : UpdateResult :=
  match add_duration_to_current now ttl with
  | none => UpdateResult.err (UpdateError.other "Invalid duration length!")
  | some expiry_time =>
    match dbUpdateMerge mergeFail db session_key
        ⟨some (encodeState session_state), some expiry_time⟩ with
    | Except.error _ => UpdateResult.err (UpdateError.other "Failed to update database record!")
    | Except.ok db2 => UpdateResult.ok session_key db2

/-- `SurrealSessionStore::update_ttl` (`src/lib.rs` lines 229-253): a zero
or negative TTL deletes the record (a failing delete is an error);
otherwise the new expiry is merge-patched onto the record with the token
field absent. -/
def update_ttl (deleteFail mergeFail : Bool) (db : DB) (now : Int) (session_key : String)
    (ttl : Duration) : OpResult :=
  if ttl.is_zero || ttl.is_negative then
    match dbDelete deleteFail db session_key with
    | Except.error _ => OpResult.err "Failed to delete database record"
    | Except.ok db2 => OpResult.ok db2
  else
    match add_duration_to_current now ttl with
    | none => OpResult.err "Invalid duration length!"
    | some expiry_time =>
      match dbUpdateMerge mergeFail db session_key ⟨none, some expiry_time⟩ with
      | Except.error _ => OpResult.err "Failed to update database record"
      | Except.ok db2 => OpResult.ok db2

/-- `SurrealSessionStore::delete` (`src/lib.rs` lines 255-272):
unconditionally delete the record; a backend failure is surfaced as the
anyhow error. -/
def delete (deleteFail : Bool) (db : DB) (session_key : String) : OpResult :=
  match dbDelete deleteFail db session_key with
  | Except.error _ => OpResult.err "Failed to delete database record"
  | Except.ok db2 => OpResult.ok db2

end ActixSessionSurrealdb

namespace ActixSessionSurrealdb

/-- A nonnegative TTL has a nonnegative millisecond count. -/
theorem whole_ms_nonneg (d : Duration) (h : d.is_negative = false) :
    0 ≤ d.whole_milliseconds := by
  unfold Duration.is_negative at h
  simp only [Bool.or_eq_false_iff, decide_eq_false_iff_not, not_lt] at h
  obtain ⟨h1, h2⟩ := h
  have h3 : 0 ≤ Int.tdiv d.nanoseconds 1000000 := Int.tdiv_nonneg h2 (by norm_num)
  unfold Duration.whole_milliseconds
  omega

/-- Characterization of `add_duration_to_current` by explicit conditions. -/
theorem add_eq (now : Int) (d : Duration) :
    add_duration_to_current now d =
      if i64Max < d.whole_milliseconds then none
      else if ndtMinMs ≤ wrap64 (now + wrap64 d.whole_milliseconds) ∧
              wrap64 (now + wrap64 d.whole_milliseconds) ≤ ndtMaxMs then
        some (wrap64 (now + wrap64 d.whole_milliseconds))
      else none := by
  unfold add_duration_to_current i128_into_i64 from_timestamp_millis
  by_cases h1 : i64Max < d.whole_milliseconds
  · simp [h1]
  · by_cases h2 : ndtMinMs ≤ wrap64 (now + wrap64 d.whole_milliseconds) ∧
        wrap64 (now + wrap64 d.whole_milliseconds) ≤ ndtMaxMs
    · simp [h1, h2]
    · simp [h1, h2]

/-- After removing an id, a lookup of that id finds nothing. -/
theorem dbFind_dbRemove (db : DB) (k : String) : dbFind (dbRemove db k) k = none := by
  induction db with
  | nil => rfl
  | cons r rest ih =>
    by_cases h : r.id = k
    · simp [dbRemove, h, ih]
    · simp [dbRemove, dbFind, h, ih]

/-- A merge patch rewrites the found record field-wise, leaving the id and
every absent field untouched. -/
theorem dbFind_dbMergePatch (db : DB) (k : String) (p : KeyRecordPatch) (rec : KeyRecord)
    (h : dbFind db k = some rec) :
    dbFind (dbMergePatch db k p) k
      = some ⟨rec.id, p.token.getD rec.token, p.expiry.getD rec.expiry⟩ := by
  induction db with
  | nil => simp [dbFind] at h
  | cons r rest ih =>
    by_cases hid : r.id = k
    · simp [dbFind, hid] at h
      subst h
      simp [dbMergePatch, dbFind, hid]
    · simp [dbFind, hid] at h
      simpa [dbMergePatch, dbFind, hid] using ih h


/-- C1 counterexample: an expired record whose best-effort delete fails.
The claim says `load` still returns `Ok(None)`; the source instead panics
through the `.expect(..)` on the delete, so the call does not return
`Ok(None)`. -/
theorem load_expired_delete_failure_cex :
    ((dbFind [(⟨"K", Token.stateJson [("u","1")], 0⟩ : KeyRecord)] "K").map KeyRecord.expiry
        = some 0) ∧
      (load false true [⟨"K", Token.stateJson [("u","1")], 0⟩] 1 "K").fst ≠ LoadResult.ok none ∧
      (load false true [⟨"K", Token.stateJson [("u","1")], 0⟩] 1 "K").fst
        = LoadResult.panicked "Deleting database record failed!" := by
  decide

/-- C1 (amended): for an expired record, a failing best-effort delete
aborts `load` with the panic message of the `.expect(..)` — the failure is
propagated as a panic, not swallowed — while a successful delete makes
`load` return `Ok(None)`. -/
theorem load_expired_delete_best_effort (db : DB) (now : Int) (k : String) (rec : KeyRecord)
    (hfind : dbFind db k = some rec) (hexp : rec.expiry < now) :
    (load false true db now k).fst = LoadResult.panicked "Deleting database record failed!" ∧
      (load false false db now k).fst = LoadResult.ok none := by
  unfold load dbSelect dbDelete
  simp [hfind, hexp]

/-- C1 witness: the amended statement at a concrete expired record. -/
theorem load_expired_delete_best_effort_w :
    (load false true [⟨"W1", Token.stateJson [("u","1")], 0⟩] 1 "W1").fst
        = LoadResult.panicked "Deleting database record failed!" ∧
      (load false false [⟨"W1", Token.stateJson [("u","1")], 0⟩] 1 "W1").fst
        = LoadResult.ok none :=
  load_expired_delete_best_effort [⟨"W1", Token.stateJson [("u","1")], 0⟩] 1 "W1"
    ⟨"W1", Token.stateJson [("u","1")], 0⟩ (by decide) (by decide)

/-- C2 counterexample: the TTL of `i64::MIN` seconds has a millisecond
count below `i64::MIN` — it does not fit the timestamp integer type in
the negative direction — yet `add_duration_to_current` returns a present
timestamp (the wrapped offset is exactly 0), instead of the absent value
the claim requires. -/
theorem add_duration_underflow_cex :
    Duration.whole_milliseconds ⟨-9223372036854775808, 0⟩ < i64Min ∧
      add_duration_to_current 1700000000000 ⟨-9223372036854775808, 0⟩ = some 1700000000000 := by
  decide

/-- C2 (amended): `add_duration_to_current` returns absent exactly when
the millisecond count of the TTL exceeds `i64::MAX`, or when the wrapped
sum of now and the (wrapped) offset falls outside the representable
timestamp range; a millisecond count below `i64::MIN` is not rejected but
wrapped by the truncating cast. -/
theorem add_duration_to_current_none_iff (now : Int) (d : Duration) :
    add_duration_to_current now d = none ↔
      (i64Max < d.whole_milliseconds ∨
        wrap64 (now + wrap64 d.whole_milliseconds) < ndtMinMs ∨
        ndtMaxMs < wrap64 (now + wrap64 d.whole_milliseconds)) := by
  rw [add_eq]
  split_ifs with h1 h2 <;> simp_all
  omega

/-- C3: save-then-load round trip.  For a nonnegative TTL and the wall
clock inside the representable timestamp range, a successful `save`
followed immediately by `load` on the returned key yields back the saved
state. -/
theorem save_load_roundtrip (cf df : Bool) (db : DB) (now : Int) (s : SessionState)
    (ttl : Duration) (k k2 : String) (db2 : DB)
    (hnow0 : 0 ≤ now) (hnow1 : now ≤ ndtMaxMs)
    (httl : ttl.is_negative = false)
    (hsave : save cf db now s ttl k = SaveResult.ok k2 db2) :
    (load false df db2 now k2).fst = LoadResult.ok (some s) := by
  have hms0 : 0 ≤ ttl.whole_milliseconds := whole_ms_nonneg ttl httl
  unfold save at hsave
  rw [add_eq] at hsave
  by_cases hov : i64Max < ttl.whole_milliseconds
  · simp [hov] at hsave
  · have hwms : wrap64 ttl.whole_milliseconds = ttl.whole_milliseconds := by
      unfold wrap64 i64Max at *
      omega
    rw [hwms] at hsave
    by_cases hrange : ndtMinMs ≤ wrap64 (now + ttl.whole_milliseconds) ∧
        wrap64 (now + ttl.whole_milliseconds) ≤ ndtMaxMs
    · simp only [hov, if_false, hrange, if_true] at hsave
      unfold dbCreate at hsave
      by_cases hcf : (cf || (dbFind db k).isSome) = true
      · simp [hcf] at hsave
      · simp only [hcf] at hsave
        simp at hsave
        obtain ⟨hk2, hdb2⟩ := hsave
        subst hk2
        subst hdb2
        have hene : ¬ (wrap64 (now + ttl.whole_milliseconds) < now) := by
          unfold wrap64 ndtMinMs ndtMaxMs i64Max at *
          omega
        unfold load dbSelect
        simp [dbFind, hene, encodeState, decodeToken]
    · simp [hov, hrange] at hsave

/-- C3 witness: the round trip at a concrete state, TTL and clock. -/
theorem save_load_roundtrip_w :
    (load false false [⟨"K", Token.stateJson [("user_id","42")], 60000⟩] 0 "K").fst
      = LoadResult.ok (some [("user_id","42")]) :=
  save_load_roundtrip false false [] 0 [("user_id","42")] ⟨60,0⟩ "K" "K"
    [⟨"K", Token.stateJson [("user_id","42")], 60000⟩]
    (by decide) (by decide) (by decide) (by decide)

/-- C4: `update` either fails or returns exactly the session key that was
passed in — the identifier never changes on update. -/
theorem update_preserves_key (mf : Bool) (db : DB) (now : Int) (k : String)
    (s : SessionState) (ttl : Duration) :
    (∃ e, update mf db now k s ttl = UpdateResult.err e) ∨
      (∃ db2, update mf db now k s ttl = UpdateResult.ok k db2) := by
  unfold update
  cases hadd : add_duration_to_current now ttl with
  | none => exact Or.inl ⟨_, rfl⟩
  | some e =>
    cases hm : dbUpdateMerge mf db k ⟨some (encodeState s), some e⟩ with
    | error u =>
      exact Or.inl ⟨UpdateError.other "Failed to update database record!", by simp [hm]⟩
    | ok db2 => exact Or.inr ⟨db2, by simp [hm]⟩

/-- C5: a zero or negative TTL makes `update_ttl` delete the record: a
failing backend delete is surfaced as the error (not swallowed), and
after a successful call `load` on the key returns `Ok(None)`. -/
theorem update_ttl_nonpositive_deletes (mf df2 : Bool) (db : DB) (now now2 : Int)
    (k : String) (ttl : Duration)
    (h : ttl.is_zero = true ∨ ttl.is_negative = true) :
    update_ttl true mf db now k ttl = OpResult.err "Failed to delete database record" ∧
      ∃ db2, update_ttl false mf db now k ttl = OpResult.ok db2 ∧
        (load false df2 db2 now2 k).fst = LoadResult.ok none := by
  have hcond : (ttl.is_zero || ttl.is_negative) = true := by
    rcases h with h | h <;> simp [h]
  refine ⟨?_, dbRemove db k, ?_, ?_⟩
  · unfold update_ttl dbDelete
    simp [hcond]
  · unfold update_ttl dbDelete
    simp [hcond]
  · unfold load dbSelect
    simp [dbFind_dbRemove]

/-- C5 witness: a zero TTL on a present record deletes it and a failing
delete backend surfaces the error. -/
theorem update_ttl_nonpositive_deletes_w :
    update_ttl true false [⟨"K", Token.nullJson, 99⟩] 0 "K" ⟨0,0⟩
        = OpResult.err "Failed to delete database record" ∧
      ∃ db2, update_ttl false false [⟨"K", Token.nullJson, 99⟩] 0 "K" ⟨0,0⟩
          = OpResult.ok db2 ∧
        (load false false db2 7 "K").fst = LoadResult.ok none :=
  update_ttl_nonpositive_deletes false false [⟨"K", Token.nullJson, 99⟩] 0 7 "K" ⟨0,0⟩
    (Or.inl (by decide))

/-- C6: `delete` is idempotent — both the first and the second call
succeed, and `load` on the key returns `Ok(None)` after either call. -/
theorem delete_idempotent (db : DB) (k : String) (now : Int) :
    ∃ db1 db2, delete false db k = OpResult.ok db1 ∧
      delete false db1 k = OpResult.ok db2 ∧
      (load false false db1 now k).fst = LoadResult.ok none ∧
      (load false false db2 now k).fst = LoadResult.ok none := by
  refine ⟨dbRemove db k, dbRemove (dbRemove db k) k, rfl, rfl, ?_, ?_⟩
  · unfold load dbSelect
    simp [dbFind_dbRemove]
  · unfold load dbSelect
    simp [dbFind_dbRemove]

/-- C7: a present, unexpired record with a malformed payload makes `load`
fail with `LoadError::Deserialization`; the failure is surfaced, never
masked by an empty or default state. -/
theorem load_malformed_deserialization (df : Bool) (db : DB) (now : Int) (k : String)
    (rec : KeyRecord) (raw : String)
    (hfind : dbFind db k = some rec) (hexp : ¬ rec.expiry < now)
    (htok : rec.token = Token.malformed raw) :
    (load false df db now k).fst = LoadResult.err (LoadError.deserialization raw) := by
  unfold load dbSelect
  simp [hfind, hexp, htok, decodeToken]

/-- C7 witness: the deserialization failure at a concrete malformed
record. -/
theorem load_malformed_deserialization_w :
    (load false false [⟨"K7", Token.malformed "bad", 100⟩] 50 "K7").fst
      = LoadResult.err (LoadError.deserialization "bad") :=
  load_malformed_deserialization false [⟨"K7", Token.malformed "bad", 100⟩] 50 "K7"
    ⟨"K7", Token.malformed "bad", 100⟩ "bad" (by decide) (by decide) rfl

/-- C8: for a strictly positive TTL whose expiry computation succeeds,
`update_ttl` merge-patches only the expiry of the existing record: the
call succeeds and the record found afterwards keeps its id and token,
with only the expiry replaced. -/
theorem update_ttl_positive_frame (df : Bool) (db : DB) (now : Int) (k : String)
    (ttl : Duration) (rec : KeyRecord) (e : Int)
    (hz : ttl.is_zero = false) (hn : ttl.is_negative = false)
    (hfind : dbFind db k = some rec)
    (hexp : add_duration_to_current now ttl = some e) :
    update_ttl df false db now k ttl
        = OpResult.ok (dbMergePatch db k ⟨none, some e⟩) ∧
      dbFind (dbMergePatch db k ⟨none, some e⟩) k = some ⟨rec.id, rec.token, e⟩ := by
  constructor
  · unfold update_ttl dbUpdateMerge
    simp [hz, hn, hexp, hfind]
  · simpa using dbFind_dbMergePatch db k ⟨none, some e⟩ rec hfind

/-- C8 witness: the frame property at a concrete record and TTL. -/
theorem update_ttl_positive_frame_w :
    update_ttl true false [⟨"K8", Token.stateJson [("a","b")], 5⟩] 0 "K8" ⟨60,0⟩
        = OpResult.ok (dbMergePatch [⟨"K8", Token.stateJson [("a","b")], 5⟩] "K8"
            ⟨none, some 60000⟩) ∧
      dbFind (dbMergePatch [⟨"K8", Token.stateJson [("a","b")], 5⟩] "K8" ⟨none, some 60000⟩) "K8"
        = some ⟨"K8", Token.stateJson [("a","b")], 60000⟩ :=
  update_ttl_positive_frame true [⟨"K8", Token.stateJson [("a","b")], 5⟩] 0 "K8" ⟨60,0⟩
    ⟨"K8", Token.stateJson [("a","b")], 5⟩ 60000 (by decide) (by decide) (by decide) (by decide)

/-- Every position of the alphanumeric alphabet, and its default
character, is alphanumeric. -/
theorem alphanumericChars_getD_isAlphanum (n : Nat) :
    (alphanumericChars.getD n 'A').isAlphanum = true := by
  by_cases h : n < 62
  · revert h
    revert n
    decide
  · have hlen : alphanumericChars.length = 62 := by decide
    rw [List.getD_eq_default _ _ (by omega)]
    decide

/-- C9: every session key the generator produces, whatever the entropy
stream, is a string of exactly 64 characters, each alphanumeric. -/
theorem generate_session_key_spec (entropy : Nat → Nat) :
    (generate_session_key entropy).length = 64 ∧
      ∀ c ∈ (generate_session_key entropy).toList, c.isAlphanum = true := by
  constructor
  · unfold generate_session_key
    simp [String.length]
  · intro c hc
    unfold generate_session_key at hc
    simp only [String.toList, List.mem_map, List.mem_range] at hc
    obtain ⟨i, hi, hceq⟩ := hc
    subst hceq
    exact alphanumericChars_getD_isAlphanum _

/-- C10 counterexample: an expired record with a malformed payload whose
best-effort delete fails.  The claim says `load` returns `Ok(None)` for
every expired record; here the call instead aborts through the
`.expect(..)` panic on the failing delete. -/
theorem load_expired_ordering_cex :
    ((dbFind [(⟨"K10", Token.malformed "oops", 5⟩ : KeyRecord)] "K10").map KeyRecord.expiry
        = some 5) ∧
      (load false true [⟨"K10", Token.malformed "oops", 5⟩] 10 "K10").fst
        ≠ LoadResult.ok none := by
  decide

/-- C10 (amended): the expiry check precedes payload decoding.  For an
expired record — malformed payload included — `load` returns `Ok(None)`
when the best-effort delete succeeds, and in no case does an expired
record produce `LoadError::Deserialization`. -/
theorem load_expired_before_decode (df : Bool) (db : DB) (now : Int) (k : String)
    (rec : KeyRecord)
    (hfind : dbFind db k = some rec) (hexp : rec.expiry < now) :
    (load false false db now k).fst = LoadResult.ok none ∧
      ∀ m, (load false df db now k).fst ≠ LoadResult.err (LoadError.deserialization m) := by
  constructor
  · unfold load dbSelect dbDelete
    simp [hfind, hexp]
  · intro m
    unfold load dbSelect dbDelete
    cases df <;> simp [hfind, hexp]

/-- C10 witness: the amended statement at a concrete expired record with
a malformed payload. -/
theorem load_expired_before_decode_w :
    (load false false [⟨"W10", Token.malformed "xx", 3⟩] 9 "W10").fst = LoadResult.ok none ∧
      (load false true [⟨"W10", Token.malformed "xx", 3⟩] 9 "W10").fst
        ≠ LoadResult.err (LoadError.deserialization "xx") :=
  ⟨(load_expired_before_decode true [⟨"W10", Token.malformed "xx", 3⟩] 9 "W10"
      ⟨"W10", Token.malformed "xx", 3⟩ (by decide) (by decide)).1,
    (load_expired_before_decode true [⟨"W10", Token.malformed "xx", 3⟩] 9 "W10"
      ⟨"W10", Token.malformed "xx", 3⟩ (by decide) (by decide)).2 "xx"⟩

end ActixSessionSurrealdb
